import Mathlib

/-!
Verification development for the client-side worker runtime (task admission,
polling and lifecycle engine) of the Temporal Go SDK, together with the
deterministic-iteration helpers of the workflow package.

The sources available contain the worker test-suite
(internal/internal_workers_test.go), the public worker package declarations and
the workflow package wrappers (workflow/workflow.go).  The engine itself
(poller/dispatcher loop, worker lifecycle controller, eager-dispatch registry,
local-activity marker recorder, internal.DeterministicKeys) is not among the
sources, so those parts are modelled from the specification, as indicated on
each definition.  The two concrete slot suppliers used by the test-suite
(CountingSlotSupplier, SometimesFailSlotSupplier) are embedded directly from
the source.
-/

/-- Calls a poller/dispatcher cycle can make on a Slot Supplier, as observed by
the supplier: a successful reservation (ReserveSlot or TryReserveSlot returning
a permit), a rejected reservation (the supplier itself errored, no permit
handed out), MarkSlotUsed and ReleaseSlot. -/
inductive SlotEvent where
  | reserveOk
  | reserveRejected
  | markUsed
  | release
deriving DecidableEq, Repr

/-- Outcome of one long-poll request: a task (carrying whether the handler for
it panics when executed), an empty response, or a transient RPC error. -/
inductive PollResponse where
  | task (handlerPanics : Bool)
  | empty
  | transientErr
deriving DecidableEq, Repr

/-- Outcome of the blocking slot reservation at the start of a cycle. -/
inductive ReserveOutcome where
  | ok
  | cancelled
  | rejected
deriving DecidableEq, Repr

/-- What the poller loop does after a cycle:  loop back to polling, retry after
a backoff, stop (terminal), or surface a fatal worker-level error. -/
inductive StepResult where
  | next
  | retryBackoff
  | stopped
  | fatal
deriving DecidableEq, Repr

/-- Modelled from the spec: poller/dispatcher cycle of §4.3, whose
implementation is not among the sources.  Given the reservation outcome and the
poll response, the list of Slot Supplier calls the cycle performs, in order:
cancellation during reserve makes no call; a supplier-rejected reservation
consumed no slot so nothing is released; a successful reservation is followed
by one poll, and the slot is released on an empty response, on a transient RPC
error, and after executing a received task (MarkSlotUsed first, release
unconditionally, panic or not). -/
def pollerCycleEvents (r : ReserveOutcome) (p : PollResponse) : List SlotEvent :=
  match r with
  | ReserveOutcome.cancelled => []
  | ReserveOutcome.rejected => [SlotEvent.reserveRejected]
  | ReserveOutcome.ok =>
    match p with
    | PollResponse.empty => [SlotEvent.reserveOk, SlotEvent.release]
    | PollResponse.transientErr => [SlotEvent.reserveOk, SlotEvent.release]
    | PollResponse.task _ =>
        [SlotEvent.reserveOk, SlotEvent.markUsed, SlotEvent.release]

/-- Modelled from the spec: what the loop of §4.3 does next after a cycle.
Cancellation during reserve transitions directly to Stopped; a supplier
rejection and a transient RPC error are retried after a backoff; otherwise the
loop continues polling.  No cycle outcome is a fatal worker-level error. -/
def pollerCycleResult (r : ReserveOutcome) (p : PollResponse) : StepResult :=
  match r with
  | ReserveOutcome.cancelled => StepResult.stopped
  | ReserveOutcome.rejected => StepResult.retryBackoff
  | ReserveOutcome.ok =>
    match p with
    | PollResponse.empty => StepResult.next
    | PollResponse.transientErr => StepResult.retryBackoff
    | PollResponse.task _ => StepResult.next

/-- Modelled from the spec: the Slot Supplier trace of one poller loop driven
by a script of cycles, running until the loop observes shutdown (a cycle whose
result is Stopped) or the script ends (a clean stop between complete cycles).
Every cycle runs to completion: the forced-timeout shutdown case, in which an
in-flight cycle is abandoned, is deliberately not part of a clean run. -/
def runEvents : List (ReserveOutcome × PollResponse) → List SlotEvent
  | [] => []
  | c :: cs =>
      pollerCycleEvents c.1 c.2 ++
        (if pollerCycleResult c.1 c.2 = StepResult.stopped then []
         else runEvents cs)

/-- Number of successful reservations in a trace. -/
def reserveOkCount (t : List SlotEvent) : Nat :=
  t.count SlotEvent.reserveOk

/-- Number of ReleaseSlot calls in a trace. -/
def releaseCount (t : List SlotEvent) : Nat :=
  t.count SlotEvent.release

/-- Number of MarkSlotUsed calls in a trace. -/
def markUsedCount (t : List SlotEvent) : Nat :=
  t.count SlotEvent.markUsed

/-- Embedded from the source (internal_workers_test.go, CountingSlotSupplier):
a Slot Supplier that counts reserves, releases and uses. -/
structure CountingSlotSupplier where
  reserves : Nat
  releases : Nat
  uses : Nat
deriving DecidableEq, Repr

/-- Embedded from the source: how each Slot Supplier call updates the counters
of a CountingSlotSupplier.  ReserveSlot/TryReserveSlot increment reserves only
when they hand out a permit (ReserveSlot returns the context error, without
counting, if the context is already cancelled); MarkSlotUsed increments uses;
ReleaseSlot increments releases. -/
def countingApply (c : CountingSlotSupplier) : SlotEvent → CountingSlotSupplier
  | SlotEvent.reserveOk =>
      CountingSlotSupplier.mk (c.reserves + 1) c.releases c.uses
  | SlotEvent.reserveRejected => c
  | SlotEvent.markUsed =>
      CountingSlotSupplier.mk c.reserves c.releases (c.uses + 1)
  | SlotEvent.release =>
      CountingSlotSupplier.mk c.reserves (c.releases + 1) c.uses

/-- Counters of a CountingSlotSupplier after observing a whole trace. -/
def countingRun (c : CountingSlotSupplier) (t : List SlotEvent) :
    CountingSlotSupplier :=
  t.foldl countingApply c

/-- The all-zero counters a fresh CountingSlotSupplier starts from. -/
def countingZero : CountingSlotSupplier := CountingSlotSupplier.mk 0 0 0

theorem countingRun_eq (t : List SlotEvent) :
    ∀ c : CountingSlotSupplier,
      countingRun c t =
        CountingSlotSupplier.mk (c.reserves + reserveOkCount t)
          (c.releases + releaseCount t) (c.uses + markUsedCount t) := by
  induction t with
  | nil =>
      intro c
      simp [countingRun, reserveOkCount, releaseCount, markUsedCount]
  | cons e t ih =>
      intro c
      have step : countingRun c (e :: t) = countingRun (countingApply c e) t :=
        rfl
      rw [step, ih (countingApply c e)]
      cases e <;>
        simp [countingApply, reserveOkCount, releaseCount, markUsedCount,
          List.count_cons] <;> omega

/-- Each complete poller cycle makes exactly as many ReleaseSlot calls as
successful reservations. -/
theorem cycle_balanced (r : ReserveOutcome) (p : PollResponse) :
    releaseCount (pollerCycleEvents r p) =
      reserveOkCount (pollerCycleEvents r p) := by
  cases r <;> cases p <;> rfl

/-- A full clean run of one poller loop is balanced. -/
theorem runEvents_balanced (cs : List (ReserveOutcome × PollResponse)) :
    releaseCount (runEvents cs) = reserveOkCount (runEvents cs) := by
  induction cs with
  | nil => rfl
  | cons c cs ih =>
      simp only [runEvents, releaseCount, reserveOkCount, List.count_append]
      by_cases h : pollerCycleResult c.1 c.2 = StepResult.stopped <;>
        simp only [h, if_true, if_false, if_pos, if_neg, not_false_iff] <;>
        simp only [releaseCount, reserveOkCount] at ih ⊢
      · have hb := cycle_balanced c.1 c.2
        simp only [releaseCount, reserveOkCount] at hb
        simp [hb]
      · have hb := cycle_balanced c.1 c.2
        simp only [releaseCount, reserveOkCount] at hb
        simp [hb, ih]

theorem joined_runs_balanced
    (css : List (List (ReserveOutcome × PollResponse))) :
    releaseCount (css.map runEvents).flatten =
      reserveOkCount (css.map runEvents).flatten := by
  induction css with
  | nil => rfl
  | cons c cs ih =>
      have hb := runEvents_balanced c
      simp only [List.map_cons, List.flatten_cons, releaseCount,
        reserveOkCount, List.count_append] at *
      omega

/-- Claim C1: over a worker's full run from Start through a clean Stop — any
interleaving of the complete-cycle traces of its poller loops — a counting
Slot Supplier observes exactly as many ReleaseSlot calls as successful
ReserveSlot/TryReserveSlot calls, whether a poll came back empty, failed with
a transient error, the handler panicked, or the loop was stopped mid-run by
cancellation.  Only the forced-timeout shutdown, which abandons an in-flight
cycle and is excluded from clean runs, is exempt. -/
theorem reserve_release_balance
    (css : List (List (ReserveOutcome × PollResponse)))
    (t : List SlotEvent)
    (h : t.Perm (css.map runEvents).flatten) :
    (countingRun countingZero t).releases =
      (countingRun countingZero t).reserves := by
  rw [countingRun_eq t countingZero]
  have hrel : releaseCount t = releaseCount (css.map runEvents).flatten :=
    h.count_eq SlotEvent.release
  have hres : reserveOkCount t = reserveOkCount (css.map runEvents).flatten :=
    h.count_eq SlotEvent.reserveOk
  have hb := joined_runs_balanced css
  simp only [countingZero]
  omega

/-- Claim C1 witness: two poller loops, one dispatching a task then observing
shutdown, one polling empty then hitting a transient error; an interleaving of
their traces balances. -/
theorem reserve_release_balance_w :
    ([SlotEvent.reserveOk, SlotEvent.reserveOk, SlotEvent.markUsed,
        SlotEvent.release, SlotEvent.release] : List SlotEvent).Perm
      (([[(ReserveOutcome.ok, PollResponse.task true)],
         [(ReserveOutcome.ok, PollResponse.empty),
          (ReserveOutcome.cancelled, PollResponse.empty)]].map runEvents).flatten)
    ∧
    (countingRun countingZero
        [SlotEvent.reserveOk, SlotEvent.reserveOk, SlotEvent.markUsed,
          SlotEvent.release, SlotEvent.release]).releases =
      (countingRun countingZero
        [SlotEvent.reserveOk, SlotEvent.reserveOk, SlotEvent.markUsed,
          SlotEvent.release, SlotEvent.release]).reserves :=
  ⟨by decide,
    reserve_release_balance
      [[(ReserveOutcome.ok, PollResponse.task true)],
       [(ReserveOutcome.ok, PollResponse.empty),
        (ReserveOutcome.cancelled, PollResponse.empty)]]
      [SlotEvent.reserveOk, SlotEvent.reserveOk, SlotEvent.markUsed,
        SlotEvent.release, SlotEvent.release]
      (by decide)⟩

/-- Claim C2: MarkSlotUsed happens exactly once for a permit whose task
reaches execution, strictly after the successful reservation and strictly
before the corresponding release; and no cycle of any kind marks a slot used
more than once, so a single-task dispatch cycle shows the supplier exactly
one MarkSlotUsed. -/
theorem markUsed_once_between (r : ReserveOutcome) (p : PollResponse)
    (b : Bool) (hr : r = ReserveOutcome.ok) (hp : p = PollResponse.task b) :
    markUsedCount (pollerCycleEvents r p) = 1 ∧
    (pollerCycleEvents r p).indexOf SlotEvent.reserveOk <
      (pollerCycleEvents r p).indexOf SlotEvent.markUsed ∧
    (pollerCycleEvents r p).indexOf SlotEvent.markUsed <
      (pollerCycleEvents r p).indexOf SlotEvent.release ∧
    (∀ r₂ p₂, markUsedCount (pollerCycleEvents r₂ p₂) ≤ 1) := by
  subst hr; subst hp
  refine ⟨by cases b <;> rfl, by cases b <;> decide, by cases b <;> decide, ?_⟩
  intro r₂ p₂
  cases p₂ with
  | task b₂ => cases r₂ <;> cases b₂ <;> decide
  | empty => cases r₂ <;> decide
  | transientErr => cases r₂ <;> decide

/-- Claim C2 witness: the single-task dispatch cycle. -/
theorem markUsed_once_between_w :
    markUsedCount
        (pollerCycleEvents ReserveOutcome.ok (PollResponse.task false)) = 1 ∧
    (pollerCycleEvents ReserveOutcome.ok
        (PollResponse.task false)).indexOf SlotEvent.reserveOk <
      (pollerCycleEvents ReserveOutcome.ok
        (PollResponse.task false)).indexOf SlotEvent.markUsed ∧
    (pollerCycleEvents ReserveOutcome.ok
        (PollResponse.task false)).indexOf SlotEvent.markUsed <
      (pollerCycleEvents ReserveOutcome.ok
        (PollResponse.task false)).indexOf SlotEvent.release ∧
    (∀ r₂ p₂, markUsedCount (pollerCycleEvents r₂ p₂) ≤ 1) :=
  markUsed_once_between ReserveOutcome.ok (PollResponse.task false) false
    rfl rfl

/-- Embedded from the source (internal_workers_test.go,
SometimesFailSlotSupplier): a Slot Supplier that errors on every attempt whose
running attempt counter is divisible by failEveryN. -/
structure SometimesFailSlotSupplier where
  failEveryN : Nat
  currentSlot : Nat
deriving DecidableEq, Repr

/-- Embedded from the source: ReserveSlot returns an error (and no permit) when
currentSlot mod failEveryN is zero, bumping the attempt counter; otherwise it
defers to TryReserveSlot, which bumps the counter and hands out a permit. -/
def sometimesFailReserve (s : SometimesFailSlotSupplier) :
    Option Unit × SometimesFailSlotSupplier :=
  if s.currentSlot % s.failEveryN = 0 then
    (none, SometimesFailSlotSupplier.mk s.failEveryN (s.currentSlot + 1))
  else
    (some (), SometimesFailSlotSupplier.mk s.failEveryN (s.currentSlot + 1))

/-- Modelled from the spec: a poller loop driven against the
SometimesFailSlotSupplier for a given number of reservation attempts, each
successful reservation leading to a dispatched task (the error-prone supplier
scenario).  A failed reservation contributes a rejected cycle, which is
retried; a successful one contributes a full single-task dispatch cycle. -/
def sometimesFailRun :
    Nat → SometimesFailSlotSupplier →
      List SlotEvent × SometimesFailSlotSupplier
  | 0, s => ([], s)
  | n + 1, s =>
      match sometimesFailReserve s with
      | (none, s₂) =>
          let rest := sometimesFailRun n s₂
          (pollerCycleEvents ReserveOutcome.rejected (PollResponse.task false)
              ++ rest.1,
            rest.2)
      | (some _, s₂) =>
          let rest := sometimesFailRun n s₂
          (pollerCycleEvents ReserveOutcome.ok (PollResponse.task false)
              ++ rest.1,
            rest.2)

/-- Claim C3: a failed ReserveSlot call consumes no slot and triggers no
ReleaseSlot; over any number of attempts against a supplier that fails every
Kth reservation, the release count equals the successful-reservation count
exactly, and a reservation failure leads the loop to retry after a backoff,
not to stop. -/
theorem failed_reservations_do_not_leak (n : Nat)
    (s : SometimesFailSlotSupplier) (hk : 0 < s.failEveryN) :
    releaseCount (sometimesFailRun n s).1 =
      reserveOkCount (sometimesFailRun n s).1 ∧
    (∀ p, pollerCycleResult ReserveOutcome.rejected p =
        StepResult.retryBackoff ∧
      reserveOkCount (pollerCycleEvents ReserveOutcome.rejected p) = 0 ∧
      releaseCount (pollerCycleEvents ReserveOutcome.rejected p) = 0) := by
  constructor
  · clear hk
    induction n generalizing s with
    | zero => rfl
    | succ n ih =>
        simp only [sometimesFailRun, sometimesFailReserve]
        by_cases h : s.currentSlot % s.failEveryN = 0 <;>
          simp only [h, if_true, if_false, if_pos, if_neg,
            not_false_iff] <;>
          simp only [releaseCount, reserveOkCount, List.count_append] at * <;>
          have hr := ih (SometimesFailSlotSupplier.mk s.failEveryN
            (s.currentSlot + 1)) <;>
          simp only [releaseCount, reserveOkCount] at hr <;>
          simp [pollerCycleEvents, List.count_cons, hr]
  · intro p
    cases p with
    | task b => cases b <;> exact ⟨rfl, rfl, rfl⟩
    | empty => exact ⟨rfl, rfl, rfl⟩
    | transientErr => exact ⟨rfl, rfl, rfl⟩

/-- Claim C3 witness: 25 attempts against a supplier that fails every 5th
reservation, as in the error-prone-supplier test. -/
theorem failed_reservations_do_not_leak_w :
    0 < (SometimesFailSlotSupplier.mk 5 0).failEveryN ∧
    releaseCount (sometimesFailRun 25 (SometimesFailSlotSupplier.mk 5 0)).1 =
      reserveOkCount
        (sometimesFailRun 25 (SometimesFailSlotSupplier.mk 5 0)).1 :=
  ⟨by decide,
    (failed_reservations_do_not_leak 25 (SometimesFailSlotSupplier.mk 5 0)
      (by decide)).1⟩

/-- Claim C8: a transient RPC error from a long poll is never a fatal
worker-level error — indeed no cycle outcome is fatal; the slot reserved for
that poll is released within the cycle, before the retry; the loop retries
with backoff; and the worker can still be stopped cleanly afterwards, the
whole run remaining balanced. -/
theorem transient_poll_error_not_fatal
    (cs : List (ReserveOutcome × PollResponse)) :
    pollerCycleResult ReserveOutcome.ok PollResponse.transientErr =
      StepResult.retryBackoff ∧
    (∀ r p, pollerCycleResult r p ≠ StepResult.fatal) ∧
    releaseCount (pollerCycleEvents ReserveOutcome.ok
        PollResponse.transientErr) =
      reserveOkCount (pollerCycleEvents ReserveOutcome.ok
        PollResponse.transientErr) ∧
    releaseCount
        (runEvents ((ReserveOutcome.ok, PollResponse.transientErr) :: cs)) =
      reserveOkCount
        (runEvents ((ReserveOutcome.ok, PollResponse.transientErr) :: cs)) := by
  refine ⟨rfl, ?_, rfl, runEvents_balanced _⟩
  intro r p
  cases p with
  | task b => cases r <;> cases b <;> decide
  | empty => cases r <;> decide
  | transientErr => cases r <;> decide

/-- Modelled from the spec (§4.5): a Local-Activity Marker, the durable record
of one local activity's outcome keyed by its deterministic, sequence-derived
ActivityID. -/
structure LocalActivityMarker where
  activityID : Nat
  outcome : Int
deriving DecidableEq, Repr

/-- Modelled from the spec: executing the local activity with the given
sequence-derived ActivityID.  When the already-seen event history holds a
marker whose ActivityID matches, its recorded outcome is returned and the
activity function is not invoked; otherwise the function runs and a marker
recording its outcome is attached to the outgoing batch.  Returns the outcome,
the number of invocations made (0 or 1) and the marker recorded, if any. -/
def execLocalActivity (history : List LocalActivityMarker) (f : Nat → Int)
    (idx : Nat) : Int × Nat × Option LocalActivityMarker :=
  match history.find? (fun m => m.activityID == idx) with
  | some m => (m.outcome, 0, none)
  | none => (f idx, 1, some (LocalActivityMarker.mk idx (f idx)))

/-- Modelled from the spec: a pass running the first n local activities of the
orchestration logic in call order, with the strictly increasing ActivityIDs
0, 1, …, n-1 derived from call order.  Returns the results in order, the total
number of activity-function invocations, and the markers recorded. -/
def runLocalActivities (history : List LocalActivityMarker) (f : Nat → Int) :
    Nat → List Int × Nat × List LocalActivityMarker
  | 0 => ([], 0, [])
  | n + 1 =>
      let prev := runLocalActivities history f n
      let step := execLocalActivity history f n
      (prev.1 ++ [step.1], prev.2.1 + step.2.1, prev.2.2 ++ step.2.2.toList)

/-- The markers a live pass over the first k local activities records. -/
def prefixMarkers (f : Nat → Int) (k : Nat) : List LocalActivityMarker :=
  (List.range k).map (fun i => LocalActivityMarker.mk i (f i))

theorem runLocalActivities_live (f : Nat → Int) (n : Nat) :
    runLocalActivities [] f n =
      ((List.range n).map f, n, prefixMarkers f n) := by
  induction n with
  | zero => rfl
  | succ n ih =>
      simp only [runLocalActivities, ih, execLocalActivity, List.find?_nil,
        prefixMarkers, List.range_succ, List.map_append, List.map_cons,
        List.map_nil, Option.toList]

theorem prefixMarkers_find (f : Nat → Int) (k idx : Nat) :
    (prefixMarkers f k).find? (fun m => m.activityID == idx) =
      if idx < k then some (LocalActivityMarker.mk idx (f idx)) else none := by
  induction k with
  | zero => simp [prefixMarkers]
  | succ k ih =>
      simp only [prefixMarkers, List.range_succ, List.map_append,
        List.map_cons, List.map_nil, List.find?_append] at *
      rw [ih]
      by_cases h : idx < k
      · have hk : idx < k + 1 := Nat.lt_succ_of_lt h
        simp [h, hk]
      · by_cases h₂ : idx = k
        · subst h₂
          simp [h, List.find?]
        · have hk : ¬ idx < k + 1 := by omega
          have hne : (k == idx) = false := by
            simp only [beq_eq_false_iff_ne]
            omega
          simp [h, hk, List.find?, hne]

theorem runLocalActivities_replay (f : Nat → Int) (k : Nat) (n : Nat) :
    (runLocalActivities (prefixMarkers f k) f n).1 =
        (List.range n).map f ∧
    (runLocalActivities (prefixMarkers f k) f n).2.1 = n - min n k := by
  induction n with
  | zero => exact ⟨rfl, by simp [runLocalActivities]⟩
  | succ n ih =>
      obtain ⟨ih₁, ih₂⟩ := ih
      constructor
      · simp only [runLocalActivities, ih₁, execLocalActivity,
          prefixMarkers_find, List.range_succ, List.map_append, List.map_cons,
          List.map_nil]
        by_cases h : n < k <;> simp [h]
      · simp only [runLocalActivities, ih₂, execLocalActivity,
          prefixMarkers_find]
        by_cases h : n < k <;> simp [h] <;> omega

/-- Claim C4: replay does not re-invoke local activities whose markers are in
the seen history.  A live pass over n local activities invokes each function
exactly once (n invocations) and records their markers; any later pass that
has seen the markers of the first k of them — however many workflow tasks or
replay passes the execution was split across — returns results identical to
the live pass while invoking only the n - k unmarked activities; a full replay
(all markers seen) invokes none of them, so each local activity function runs
exactly once in total. -/
theorem marker_replay_idempotent (n k : Nat) (f : Nat → Int) :
    (runLocalActivities [] f n).2.1 = n ∧
    (runLocalActivities [] f n).2.2 = prefixMarkers f n ∧
    (runLocalActivities (prefixMarkers f k) f n).1 =
      (runLocalActivities [] f n).1 ∧
    (runLocalActivities (prefixMarkers f k) f n).2.1 = n - min n k ∧
    (runLocalActivities (prefixMarkers f n) f n).2.1 = 0 := by
  have hl := runLocalActivities_live f n
  have hr := runLocalActivities_replay f k n
  have hrn := runLocalActivities_replay f n n
  refine ⟨?_, ?_, ?_, hr.2, ?_⟩
  · rw [hl]
  · rw [hl]
  · rw [hr.1, hl]
  · rw [hrn.2]
    omega

/-- Modelled from the spec: the cancellation causes the worker distinguishes —
the worker-shutdown sentinel against any other reason. -/
inductive CancelCause where
  | workerShutdown
  | other
deriving DecidableEq, Repr

/-- Modelled from the spec: a cancellable background context carrying an
optional cancellation cause; the first cancellation sets the cause, which is
kept from then on. -/
structure CancelContext where
  cancelled : Bool
  cause : Option CancelCause
deriving DecidableEq, Repr

/-- Modelled from the spec: the cause a cancelled context reports to any
caller inspecting it; none while the context is live. -/
def contextCause (ctx : CancelContext) : Option CancelCause :=
  if ctx.cancelled then ctx.cause else none

/-- Modelled from the spec: cancelling a context with a cause; a context that
is already cancelled keeps its original cause. -/
def cancelWithCause (ctx : CancelContext) (c : CancelCause) : CancelContext :=
  if ctx.cancelled then ctx else CancelContext.mk true (some c)

/-- Modelled from the spec (§4.6): the Eager-Dispatch Registry, the
process-wide table of live worker handles per task-queue name, kept as the
list of (task-queue, worker handle) pairs. -/
structure EagerDispatcher where
  workersByTaskQueue : List (String × Nat)
deriving DecidableEq, Repr

/-- Modelled from the spec: registering a worker handle under its task-queue
name. -/
def registerWorker (reg : EagerDispatcher) (tq : String) (w : Nat) :
    EagerDispatcher :=
  EagerDispatcher.mk ((tq, w) :: reg.workersByTaskQueue)

/-- Modelled from the spec: deregistering a worker removes every entry for
that worker handle under that task-queue name. -/
def deregisterWorker (reg : EagerDispatcher) (tq : String) (w : Nat) :
    EagerDispatcher :=
  EagerDispatcher.mk
    (reg.workersByTaskQueue.filter (fun e => !(e.1 == tq && e.2 == w)))

/-- The worker handles the registry holds for a task-queue name. -/
def workersFor (reg : EagerDispatcher) (tq : String) : List Nat :=
  (reg.workersByTaskQueue.filter (fun e => e.1 == tq)).map Prod.snd

/-- Modelled from the spec (§4.4): worker lifecycle states; Stopping is the
transient phase inside a Stop call, so the completed call leaves the worker
Stopped. -/
inductive WorkerStatus where
  | created
  | started
  | stopped
deriving DecidableEq, Repr

/-- Modelled from the spec (§4.6): the eager-dispatch execution path of the
worker's activity worker. -/
structure EagerActivityExecutor where
  disabled : Bool
deriving DecidableEq, Repr

/-- Modelled from the spec: the worker configuration relevant to the
eager-dispatch path — the admission-rate limit on the task queue's activities,
zero meaning no limit, kept as a rational. -/
structure WorkerOptions where
  taskQueueActivitiesPerSecond : ℚ
deriving DecidableEq

/-- Modelled from the spec (§4.6): the eager-dispatch path is disabled
entirely at construction when the configuration sets an admission-rate limit
on activities for the task queue. -/
def newEagerActivityExecutor (opts : WorkerOptions) : EagerActivityExecutor :=
  EagerActivityExecutor.mk (decide (0 < opts.taskQueueActivitiesPerSecond))

/-- Modelled from the spec (§4.4): the lifecycle state of one aggregated
worker: handle, task queue, status, background context, the eager-dispatch
path of its activity worker, and how many deregistrations its Stop calls have
performed. -/
structure AggregatedWorker where
  id : Nat
  taskQueue : String
  status : WorkerStatus
  ctx : CancelContext
  eagerActivityExecutor : EagerActivityExecutor
  deregisterCount : Nat
deriving DecidableEq, Repr

/-- Modelled from the spec: NewAggregatedWorker assembles a Created worker
with a live background context and the eager-dispatch path configured from
the options. -/
def newAggregatedWorker (id : Nat) (tq : String) (opts : WorkerOptions) :
    AggregatedWorker :=
  AggregatedWorker.mk id tq WorkerStatus.created (CancelContext.mk false none)
    (newEagerActivityExecutor opts) 0

/-- Modelled from the spec (§4.4): Start registers the worker in the
Eager-Dispatch Registry under its task-queue name and moves it to Started. -/
def workerStart (w : AggregatedWorker) (reg : EagerDispatcher) :
    AggregatedWorker × EagerDispatcher :=
  if w.status = WorkerStatus.created then
    (AggregatedWorker.mk w.id w.taskQueue WorkerStatus.started w.ctx
        w.eagerActivityExecutor w.deregisterCount,
      registerWorker reg w.taskQueue w.id)
  else (w, reg)

/-- Modelled from the spec (§4.4): Stop cancels the worker's background
context with the distinguished worker-shutdown cause, deregisters the worker
from the Eager-Dispatch Registry and reaches Stopped; Stop called again after
Stopped is a no-op, not an error. -/
def workerStop (w : AggregatedWorker) (reg : EagerDispatcher) :
    AggregatedWorker × EagerDispatcher :=
  if w.status = WorkerStatus.stopped then (w, reg)
  else
    (AggregatedWorker.mk w.id w.taskQueue WorkerStatus.stopped
        (cancelWithCause w.ctx CancelCause.workerShutdown)
        w.eagerActivityExecutor (w.deregisterCount + 1),
      deregisterWorker reg w.taskQueue w.id)

/-- Claim C5: Stop cancels the worker's background context with the
distinguished worker-shutdown cause, and afterwards that cause — the shutdown
sentinel — is what any caller inspecting the context retrieves. -/
theorem stop_sets_shutdown_cause (w : AggregatedWorker)
    (reg : EagerDispatcher) (hs : w.status ≠ WorkerStatus.stopped)
    (hc : w.ctx.cancelled = false) :
    (workerStop w reg).1.ctx.cancelled = true ∧
    contextCause (workerStop w reg).1.ctx = some CancelCause.workerShutdown := by
  simp [workerStop, hs, cancelWithCause, hc, contextCause]

/-- Claim C5 witness: stopping a freshly started worker. -/
theorem stop_sets_shutdown_cause_w :
    (workerStop
        (AggregatedWorker.mk 1 "testTaskQueue" WorkerStatus.started
          (CancelContext.mk false none) (EagerActivityExecutor.mk false) 0)
        (EagerDispatcher.mk [("testTaskQueue", 1)])).1.ctx.cancelled = true ∧
    contextCause
        (workerStop
          (AggregatedWorker.mk 1 "testTaskQueue" WorkerStatus.started
            (CancelContext.mk false none) (EagerActivityExecutor.mk false) 0)
          (EagerDispatcher.mk [("testTaskQueue", 1)])).1.ctx =
      some CancelCause.workerShutdown :=
  stop_sets_shutdown_cause
    (AggregatedWorker.mk 1 "testTaskQueue" WorkerStatus.started
      (CancelContext.mk false none) (EagerActivityExecutor.mk false) 0)
    (EagerDispatcher.mk [("testTaskQueue", 1)]) (by decide) rfl

/-- Claim C6: a second Stop after the first is a no-op: it leaves the worker
and the registry exactly as the first Stop left them — in particular it never
errors and never deregisters again — and a worker that was running is
deregistered exactly once across both calls. -/
theorem double_stop_noop (w : AggregatedWorker) (reg : EagerDispatcher) :
    workerStop (workerStop w reg).1 (workerStop w reg).2 = workerStop w reg ∧
    (w.status ≠ WorkerStatus.stopped →
      (workerStop (workerStop w reg).1
          (workerStop w reg).2).1.deregisterCount = w.deregisterCount + 1) := by
  by_cases h : w.status = WorkerStatus.stopped
  · constructor
    · simp [workerStop, h]
    · intro hn
      exact absurd h hn
  · constructor
    · simp [workerStop, h]
    · intro _
      simp [workerStop, h]

/-- Claim C6 witness: double stop of a started worker deregisters once. -/
theorem double_stop_noop_w :
    WorkerStatus.started ≠ WorkerStatus.stopped ∧
    (workerStop
        (workerStop
          (AggregatedWorker.mk 2 "multi-stop-tq" WorkerStatus.started
            (CancelContext.mk false none) (EagerActivityExecutor.mk false) 0)
          (EagerDispatcher.mk [("multi-stop-tq", 2)])).1
        (workerStop
          (AggregatedWorker.mk 2 "multi-stop-tq" WorkerStatus.started
            (CancelContext.mk false none) (EagerActivityExecutor.mk false) 0)
          (EagerDispatcher.mk [("multi-stop-tq", 2)])).2).1.deregisterCount =
      0 + 1 :=
  ⟨by decide,
    (double_stop_noop
      (AggregatedWorker.mk 2 "multi-stop-tq" WorkerStatus.started
        (CancelContext.mk false none) (EagerActivityExecutor.mk false) 0)
      (EagerDispatcher.mk [("multi-stop-tq", 2)])).2 (by decide)⟩

/-- Claim C7: after Stop completes on a running worker, the Eager-Dispatch
Registry holds no entry under that worker's task-queue name, provided no other
worker shares the queue (every entry registered under that queue carries this
worker's handle). -/
theorem stop_cleans_registry (w : AggregatedWorker) (reg : EagerDispatcher)
    (hs : w.status ≠ WorkerStatus.stopped)
    (hq : ∀ e ∈ reg.workersByTaskQueue, e.1 = w.taskQueue → e.2 = w.id) :
    workersFor (workerStop w reg).2 w.taskQueue = [] := by
  simp only [workerStop, if_neg hs]
  simp only [workersFor, deregisterWorker, List.map_eq_nil_iff]
  rw [List.filter_eq_nil_iff]
  intro e he
  rw [List.mem_filter] at he
  obtain ⟨hmem, hkeep⟩ := he
  intro htq
  rw [beq_iff_eq] at htq
  have hid : e.2 = w.id := hq e hmem htq
  simp [htq, hid] at hkeep

/-- Claim C7 witness: the lone worker of its queue leaves no residual entry. -/
theorem stop_cleans_registry_w :
    workersFor
        (workerStop
          (AggregatedWorker.mk 3 "multi-stop-tq" WorkerStatus.started
            (CancelContext.mk false none) (EagerActivityExecutor.mk false) 0)
          (EagerDispatcher.mk
            [("multi-stop-tq", 3), ("other-tq", 7)])).2 "multi-stop-tq" =
      [] :=
  stop_cleans_registry
    (AggregatedWorker.mk 3 "multi-stop-tq" WorkerStatus.started
      (CancelContext.mk false none) (EagerActivityExecutor.mk false) 0)
    (EagerDispatcher.mk [("multi-stop-tq", 3), ("other-tq", 7)])
    (by decide) (by decide)

/-- Claim C9: when the configuration sets a positive admission-rate limit on
activities for the task queue, the worker's eager-dispatch path is disabled
entirely at construction. -/
theorem rate_limit_disables_eager (id : Nat) (tq : String)
    (opts : WorkerOptions) (h : 0 < opts.taskQueueActivitiesPerSecond) :
    (newAggregatedWorker id tq opts).eagerActivityExecutor.disabled = true := by
  simp [newAggregatedWorker, newEagerActivityExecutor, h]

/-- Claim C9 witness: a limit of 1 activity per second disables the path. -/
theorem rate_limit_disables_eager_w :
    (0 : ℚ) < (WorkerOptions.mk 1).taskQueueActivitiesPerSecond ∧
    (newAggregatedWorker 4 "task-queue-limit-disable-eager"
        (WorkerOptions.mk 1)).eagerActivityExecutor.disabled = true :=
  ⟨by norm_num,
    rate_limit_disables_eager 4 "task-queue-limit-disable-eager"
      (WorkerOptions.mk 1) (by norm_num)⟩

/-- Modelled from the spec: internal.DeterministicKeys, whose implementation
is not among the sources; per the documentation of its workflow-package
wrapper it returns the keys of a map in sorted order for deterministic
iteration.  A map is embedded as an association list whose order stands for
the arbitrary iteration order of a Go map; the keys are collected in that
order and then sorted ascending. -/
def DeterministicKeys {K V : Type} [LinearOrder K] (m : List (K × V)) :
    List K :=
  List.insertionSort (fun a b => a ≤ b) (m.map Prod.fst)

/-- Modelled from the spec: internal.DeterministicKeysFunc — the keys sorted
by the supplied comparison function, cmp a b negative meaning a before b. -/
def DeterministicKeysFunc {K V : Type} (m : List (K × V))
    (cmp : K → K → Int) : List K :=
  List.insertionSort (fun a b => cmp a b ≤ 0) (m.map Prod.fst)

/-- Claim C10: DeterministicKeys returns exactly the keys of the map (a
permutation of them, the empty map included) in ascending order of the key
type's ordering, and equal maps — the same entries in any iteration order —
yield the identical key sequence; DeterministicKeysFunc likewise returns the
keys sorted ascending by the supplied comparison function, identically for
equal maps, whenever that function is a total-order comparison. -/
theorem deterministicKeys_sorted {K V Kf Vf : Type} [LinearOrder K]
    (m₁ m₂ : List (K × V)) (mf₁ mf₂ : List (Kf × Vf))
    (cmp : Kf → Kf → Int) (hperm : m₁.Perm m₂) (hpermf : mf₁.Perm mf₂)
    (htot : ∀ a b, cmp a b ≤ 0 ∨ cmp b a ≤ 0)
    (htrans : ∀ a b c, cmp a b ≤ 0 → cmp b c ≤ 0 → cmp a c ≤ 0)
    (hanti : ∀ a b, cmp a b ≤ 0 → cmp b a ≤ 0 → a = b) :
    (DeterministicKeys m₁).Sorted (fun a b => a ≤ b) ∧
    (DeterministicKeys m₁).Perm (m₁.map Prod.fst) ∧
    DeterministicKeys m₁ = DeterministicKeys m₂ ∧
    (DeterministicKeysFunc mf₁ cmp).Sorted (fun a b => cmp a b ≤ 0) ∧
    (DeterministicKeysFunc mf₁ cmp).Perm (mf₁.map Prod.fst) ∧
    DeterministicKeysFunc mf₁ cmp = DeterministicKeysFunc mf₂ cmp := by
  letI : IsTotal Kf (fun a b => cmp a b ≤ 0) := ⟨htot⟩
  letI : IsTrans Kf (fun a b => cmp a b ≤ 0) := ⟨htrans⟩
  letI : IsAntisymm Kf (fun a b => cmp a b ≤ 0) := ⟨hanti⟩
  have hs₁ : (DeterministicKeys m₁).Sorted (fun a b => a ≤ b) :=
    List.sorted_insertionSort (fun a b => a ≤ b) (m₁.map Prod.fst)
  have hs₂ : (DeterministicKeys m₂).Sorted (fun a b => a ≤ b) :=
    List.sorted_insertionSort (fun a b => a ≤ b) (m₂.map Prod.fst)
  have hp₁ : (DeterministicKeys m₁).Perm (m₁.map Prod.fst) :=
    List.perm_insertionSort (fun a b => a ≤ b) (m₁.map Prod.fst)
  have hp₂ : (DeterministicKeys m₂).Perm (m₂.map Prod.fst) :=
    List.perm_insertionSort (fun a b => a ≤ b) (m₂.map Prod.fst)
  have hfs₁ : (DeterministicKeysFunc mf₁ cmp).Sorted
      (fun a b => cmp a b ≤ 0) :=
    List.sorted_insertionSort (fun a b => cmp a b ≤ 0) (mf₁.map Prod.fst)
  have hfs₂ : (DeterministicKeysFunc mf₂ cmp).Sorted
      (fun a b => cmp a b ≤ 0) :=
    List.sorted_insertionSort (fun a b => cmp a b ≤ 0) (mf₂.map Prod.fst)
  have hfp₁ : (DeterministicKeysFunc mf₁ cmp).Perm (mf₁.map Prod.fst) :=
    List.perm_insertionSort (fun a b => cmp a b ≤ 0) (mf₁.map Prod.fst)
  have hfp₂ : (DeterministicKeysFunc mf₂ cmp).Perm (mf₂.map Prod.fst) :=
    List.perm_insertionSort (fun a b => cmp a b ≤ 0) (mf₂.map Prod.fst)
  refine ⟨hs₁, hp₁, ?_, hfs₁, hfp₁, ?_⟩
  · exact List.eq_of_perm_of_sorted
      (hp₁.trans ((hperm.map Prod.fst).trans hp₂.symm)) hs₁ hs₂
  · exact List.eq_of_perm_of_sorted
      (hfp₁.trans ((hpermf.map Prod.fst).trans hfp₂.symm)) hfs₁ hfs₂

/-- Claim C10 witness: the unsorted three-entry map of the tests, in two
iteration orders, with the subtraction comparator. -/
theorem deterministicKeys_sorted_w :
    (DeterministicKeys
        [((1 : Int), (1 : Int)), (5, 5), (3, 3)]).Sorted
      (fun a b => a ≤ b) ∧
    (DeterministicKeys [((1 : Int), (1 : Int)), (5, 5), (3, 3)]).Perm
      ([((1 : Int), (1 : Int)), (5, 5), (3, 3)].map Prod.fst) ∧
    DeterministicKeys [((1 : Int), (1 : Int)), (5, 5), (3, 3)] =
      DeterministicKeys [((3 : Int), (3 : Int)), (1, 1), (5, 5)] ∧
    (DeterministicKeysFunc [((1 : Int), (1 : Int)), (5, 5), (3, 3)]
        (fun a b => a - b)).Sorted (fun a b => a - b ≤ 0) ∧
    (DeterministicKeysFunc [((1 : Int), (1 : Int)), (5, 5), (3, 3)]
        (fun a b => a - b)).Perm
      ([((1 : Int), (1 : Int)), (5, 5), (3, 3)].map Prod.fst) ∧
    DeterministicKeysFunc [((1 : Int), (1 : Int)), (5, 5), (3, 3)]
        (fun a b => a - b) =
      DeterministicKeysFunc [((3 : Int), (3 : Int)), (1, 1), (5, 5)]
        (fun a b => a - b) :=
  deterministicKeys_sorted
    [((1 : Int), (1 : Int)), (5, 5), (3, 3)]
    [((3 : Int), (3 : Int)), (1, 1), (5, 5)]
    [((1 : Int), (1 : Int)), (5, 5), (3, 3)]
    [((3 : Int), (3 : Int)), (1, 1), (5, 5)]
    (fun a b => a - b) (by decide) (by decide)
    (fun a b => by change a - b ≤ 0 ∨ b - a ≤ 0; omega)
    (fun a b c => by
      change a - b ≤ 0 → b - c ≤ 0 → a - c ≤ 0; omega)
    (fun a b => by change a - b ≤ 0 → b - a ≤ 0 → a = b; omega)

/-- Claim C4 witness: two local activities, the first already marked. -/
theorem marker_replay_idempotent_w :
    (runLocalActivities [] (fun i => Int.ofNat i) 2).2.1 = 2 ∧
    (runLocalActivities [] (fun i => Int.ofNat i) 2).2.2 =
      prefixMarkers (fun i => Int.ofNat i) 2 ∧
    (runLocalActivities (prefixMarkers (fun i => Int.ofNat i) 1)
        (fun i => Int.ofNat i) 2).1 =
      (runLocalActivities [] (fun i => Int.ofNat i) 2).1 ∧
    (runLocalActivities (prefixMarkers (fun i => Int.ofNat i) 1)
        (fun i => Int.ofNat i) 2).2.1 = 2 - min 2 1 ∧
    (runLocalActivities (prefixMarkers (fun i => Int.ofNat i) 2)
        (fun i => Int.ofNat i) 2).2.1 = 0 :=
  marker_replay_idempotent 2 1 (fun i => Int.ofNat i)

/-- Claim C8 witness: a transient poll error followed by an empty poll and a
clean stop. -/
theorem transient_poll_error_not_fatal_w :
    pollerCycleResult ReserveOutcome.ok PollResponse.transientErr =
      StepResult.retryBackoff ∧
    (∀ r p, pollerCycleResult r p ≠ StepResult.fatal) ∧
    releaseCount (pollerCycleEvents ReserveOutcome.ok
        PollResponse.transientErr) =
      reserveOkCount (pollerCycleEvents ReserveOutcome.ok
        PollResponse.transientErr) ∧
    releaseCount
        (runEvents ((ReserveOutcome.ok, PollResponse.transientErr) ::
          [(ReserveOutcome.ok, PollResponse.empty),
           (ReserveOutcome.cancelled, PollResponse.empty)])) =
      reserveOkCount
        (runEvents ((ReserveOutcome.ok, PollResponse.transientErr) ::
          [(ReserveOutcome.ok, PollResponse.empty),
           (ReserveOutcome.cancelled, PollResponse.empty)])) :=
  transient_poll_error_not_fatal
    [(ReserveOutcome.ok, PollResponse.empty),
     (ReserveOutcome.cancelled, PollResponse.empty)]
